import Mathlib

set_option maxRecDepth 8192

/-!
Verification of the TeamSpeak 3 client engine and UDP relay of this
repository.  The TypeScript sources (`server/ts3-client.ts`, the crypto
module concatenated with it, and the relay `proxy.js`) are shallowly
embedded: byte strings become `List Nat`, JavaScript `Map`s become
association lists, the mutable client object becomes an explicit
`TS3State` record threaded through the handlers, and outbound traffic
becomes an explicit list of `TS3Action`s.  External crypto primitives that
the code takes from node's `crypto` module (the AES-128 block cipher and
SHA-256) are abstracted as parameters bundled in `Prims`; everything the
repository itself implements (CMAC/OMAC, EAX, CTR, the key/nonce KDF,
the RSA puzzle, command escaping, packet handling, the relay upgrade
gate) is translated definition by definition from the source.
-/

/-! ## Command sublanguage escaping (`escapeTS3` / `unescapeTS3`)

`ts3-client.ts` implements both directions with chains of JavaScript
global `String.replace` calls.  A global replace of a single-character
pattern maps each character independently (`replaceChar`); a global
replace of a two-character pattern scans left to right without overlap
(`replacePair`). -/

/-- JS `s.replace(/c/g, rep)` for a single-character pattern `c`. -/
def replaceChar (c : Char) (rep : List Char) (s : List Char) : List Char :=
  (s.map (fun x => if x = c then rep else [x])).flatten

/-- JS `s.replace(/ab/g, rep)` for a two-character pattern `a b`:
left-to-right scan, non-overlapping matches. -/
def replacePair (a b : Char) (rep : List Char) : List Char → List Char
  | [] => []
  | [c] => [c]
  | c₁ :: c₂ :: rest =>
    if c₁ = a ∧ c₂ = b then rep ++ replacePair a b rep rest
    else c₁ :: replacePair a b rep (c₂ :: rest)

/-- `escapeTS3` from `ts3-client.ts`: seven global replaces, backslash
first, then space, `|`, newline, CR, tab, `/`. -/
def escapeTS3 (s : List Char) : List Char :=
  replaceChar '/' ['\\', '/']
    (replaceChar '\t' ['\\', 't']
      (replaceChar '\r' ['\\', 'r']
        (replaceChar '\n' ['\\', 'n']
          (replaceChar '|' ['\\', 'p']
            (replaceChar ' ' ['\\', 's']
              (replaceChar '\\' ['\\', '\\'] s))))))

/-- `unescapeTS3` from `ts3-client.ts`: seven global replaces, `\s`
first and the double-backslash collapse last. -/
def unescapeTS3 (s : List Char) : List Char :=
  replacePair '\\' '\\' ['\\']
    (replacePair '\\' '/' ['/']
      (replacePair '\\' 't' ['\t']
        (replacePair '\\' 'r' ['\r']
          (replacePair '\\' 'n' ['\n']
            (replacePair '\\' 'p' ['|']
              (replacePair '\\' 's' [' '] s))))))

/-! ## Big-endian byte-string / natural conversions

`solveRsaPuzzle` converts between `Buffer`s and `BigInt`s through hex
strings; on 64-byte inputs that is exactly big-endian base-256. -/

/-- Value of a big-endian byte string (`BigInt("0x" + buf.toString("hex"))`). -/
def fromBytesBE (bs : List Nat) : Nat :=
  bs.foldl (fun a b => a * 256 + b) 0

/-- `len`-byte big-endian encoding of `v`
(`v.toString(16).padStart(2*len, "0")` re-read as bytes; exact for `v < 256 ^ len`). -/
def toBytesBE (len v : Nat) : List Nat :=
  (List.range len).map (fun i => v / 256 ^ (len - 1 - i) % 256)

/-- The squaring loop of `solveRsaPuzzle`:
`for (let i = 0; i < level; i++) xBig = (xBig * xBig) % nBig`. -/
def sqLoop (n : Nat) : Nat → Nat → Nat
  | 0, v => v
  | k + 1, v => sqLoop n k (v * v % n)

/-- `solveRsaPuzzle(x, n, level)` from the crypto module: interpret the
buffers as big-endian integers, square `level` times modulo `n`, emit 64
big-endian bytes. -/
def solveRsaPuzzle (x n : List Nat) (level : Nat) : List Nat :=
  toBytesBE 64 (sqLoop (fromBytesBE n) level (fromBytesBE x))

/-! ## External crypto primitives

Node's `crypto` module supplies the AES-128 block cipher and the hash
functions; the repository treats them as opaque keyed functions.  They
are abstracted here as parameters, so every theorem below holds for an
arbitrary instantiation. -/

/-- The external primitives used by the embedded code: `aesBlock key block`
is one AES-128-ECB block encryption, `sha256` the SHA-256 digest. -/
structure Prims where
  aesBlock : List Nat → List Nat → List Nat
  sha256 : List Nat → List Nat

/-- A concrete trivial instantiation of the external primitives, used to
evaluate the embedded code on concrete inputs. -/
def trivPrims : Prims where
  aesBlock := fun _ b => b
  sha256 := fun _ => List.replicate 32 0

/-! ## CMAC / OMAC / EAX (`ts3-crypto`)

Byte buffers follow JS `Buffer` semantics: reads past the end yield 0
(modelled with `List.getD`), fixed-size outputs are built index by
index. -/

/-- The byte-wise big-endian left shift by one bit inside
`generateSubkeys` (`tmp = (l[i] << 1) | carry`, carry `l[i] >> 7`). -/
def shiftLeftOne (l : List Nat) : List Nat :=
  ((List.range 16).reverse.foldl
    (fun (acc : Nat × List Nat) i =>
      let b := l.getD i 0
      (b >>> 7, (((b <<< 1) ||| acc.1) &&& 255) :: acc.2))
    (0, ([] : List Nat))).2

/-- The conditional `0x87` fix-up in `generateSubkeys`
(`if (l[0] & 0x80) k[15] ^= 0x87`). -/
def condXor87 (src shifted : List Nat) : List Nat :=
  if src.getD 0 0 &&& 0x80 ≠ 0 then shifted.set 15 (shifted.getD 15 0 ^^^ 0x87)
  else shifted

/-- `generateSubkeys(key)`: `L = AES_K(0^16)`, then the two GF(2^128)
doublings with conditional `0x87`. -/
def generateSubkeys (P : Prims) (key : List Nat) : List Nat × List Nat :=
  let l := P.aesBlock key (List.replicate 16 0)
  let k1 := condXor87 l (shiftLeftOne l)
  let k2 := condXor87 k1 (shiftLeftOne k1)
  (k1, k2)

/-- XOR of two 16-byte blocks (`y[j] = x[j] ^ block[j]` for `j < 16`,
missing bytes read as 0). -/
def xorBlock (a b : List Nat) : List Nat :=
  (List.range 16).map fun j => a.getD j 0 ^^^ b.getD j 0

/-- `cmac(key, message)` from the crypto module: zero-pad to whole
blocks, `0x80` marker and `K2` on an incomplete last block, `K1` on a
complete one, then the CBC-MAC chain. -/
def cmac (P : Prims) (key msg : List Nat) : List Nat :=
  let sub := generateSubkeys P key
  let numBlocks := if msg.length = 0 then 1 else (msg.length + 15) / 16
  let padded0 := msg ++ List.replicate (numBlocks * 16 - msg.length) 0
  let padded :=
    if 0 < msg.length ∧ msg.length % 16 = 0 then
      padded0.take ((numBlocks - 1) * 16) ++
        xorBlock (padded0.drop ((numBlocks - 1) * 16)) sub.1
    else
      let p1 := if msg.length < padded0.length then padded0.set msg.length 0x80 else padded0
      p1.take ((numBlocks - 1) * 16) ++
        xorBlock (p1.drop ((numBlocks - 1) * 16)) sub.2
  (List.range numBlocks).foldl
    (fun x i => P.aesBlock key (xorBlock x ((padded.drop (i * 16)).take 16)))
    (List.replicate 16 0)

/-- `omac(key, tweak, data)`: CMAC of a 15-zero-byte block ending in the
tweak byte, followed by the data. -/
def omac (P : Prims) (key : List Nat) (tweak : Nat) (data : List Nat) : List Nat :=
  cmac P key ((List.replicate 15 0 ++ [tweak]) ++ data)

/-- Byte `j` of the AES-CTR keystream started at the 16-byte big-endian
counter `iv` (node `aes-128-ctr`). -/
def ctrByte (P : Prims) (key iv : List Nat) (j : Nat) : Nat :=
  (P.aesBlock key (toBytesBE 16 ((fromBytesBE iv + j / 16) % 2 ^ 128))).getD (j % 16) 0

/-- AES-CTR en/decryption of `data` (same operation in both
directions): byte-wise XOR with the keystream. -/
def ctrCrypt (P : Prims) (key iv data : List Nat) : List Nat :=
  (List.range data.length).map fun j => data.getD j 0 ^^^ ctrByte P key iv j

/-- `eaxEncrypt(key, nonce, header, plaintext, tagLen)`:
`N = OMAC_0(nonce)`, `H = OMAC_1(header)`, CTR under `N`,
`C = OMAC_2(ciphertext)`, tag `= (N ^ H ^ C)[0..tagLen]`.
Returns `(ciphertext, tag)`. -/
def eaxEncrypt (P : Prims) (key nonce header plaintext : List Nat) (tagLen : Nat) :
    List Nat × List Nat :=
  let n := omac P key 0 nonce
  let h := omac P key 1 header
  let ciphertext := ctrCrypt P key (n.take 16) plaintext
  let c := omac P key 2 ciphertext
  let fullTag := (List.range 16).map fun i => n.getD i 0 ^^^ h.getD i 0 ^^^ c.getD i 0
  (ciphertext, fullTag.take tagLen)

/-- `eaxDecrypt(key, nonce, header, ciphertext, tag)`: recompute the tag,
compare its first `tag.length` bytes (a missing byte fails the compare,
as JS `undefined !== x`), and CTR-decrypt on success. -/
def eaxDecrypt (P : Prims) (key nonce header ciphertext tag : List Nat) :
    Option (List Nat) :=
  let n := omac P key 0 nonce
  let h := omac P key 1 header
  let c := omac P key 2 ciphertext
  let computedTag := (List.range 16).map fun i => n.getD i 0 ^^^ h.getD i 0 ^^^ c.getD i 0
  if (List.range tag.length).all (fun i => computedTag[i]? == some (tag.getD i 0)) then
    some (ctrCrypt P key (n.take 16) ciphertext)
  else none

/-- `createKeyNonce(pType, clientId, packetId, generationId, sharedIv)`:
SHA-256 of the 70-byte buffer `[dir, type, generation_be32, sharedIv]`,
key = first 16 bytes with the packet id XORed into bytes 0 and 1,
nonce = next 16 bytes.  `c2s` is true when a client id was supplied. -/
def createKeyNonce (P : Prims) (pType : Nat) (c2s : Bool)
    (packetId generationId : Nat) (sharedIv : List Nat) : List Nat × List Nat :=
  let temp := [if c2s then 0x31 else 0x30, pType] ++ toBytesBE 4 generationId ++
    (sharedIv.take 64 ++ List.replicate (64 - sharedIv.length) 0)
  let hash := P.sha256 temp
  let key0 := hash.take 16
  let key1 := key0.set 0 (key0.getD 0 0 ^^^ (packetId >>> 8 &&& 255))
  let key := key1.set 1 (key1.getD 1 0 ^^^ (packetId &&& 255))
  (key, (hash.drop 16).take 16)

/-- `FAKE_KEY` (`"c:\windows\syste"` in ASCII). -/
def FAKE_KEY : List Nat := "c:\\windows\\syste".toList.map Char.toNat

/-- `FAKE_NONCE` (`"m\firewall32.cpl"` in ASCII). -/
def FAKE_NONCE : List Nat := "m\\firewall32.cpl".toList.map Char.toNat

/-- `decryptFake(data, headerLen)`: EAX decryption under the fixed
handshake key/nonce, with the post-MAC header bytes as associated data
and the first 8 bytes as tag. -/
def decryptFake (P : Prims) (data : List Nat) (headerLen : Nat) : Option (List Nat) :=
  eaxDecrypt P FAKE_KEY FAKE_NONCE ((data.drop 8).take (headerLen - 8))
    (data.drop headerLen) (data.take 8)

/-! ## The client engine state (`TS3Client`)

The mutable fields of the `TS3Client` object that the embedded handlers
touch.  JS `Map`s become association lists in insertion order. -/

/-- `Map.get` with a JS `|| default` fallback. -/
def mapGetD (m : List (Nat × Nat)) (k d : Nat) : Nat :=
  match m.find? (fun p => p.1 == k) with
  | some p => p.2
  | none => d

/-- `Map.set`: replace in place if present, append otherwise. -/
def mapSet : List (Nat × Nat) → Nat → Nat → List (Nat × Nat)
  | [], k, v => [(k, v)]
  | p :: rest, k, v => if p.1 = k then (k, v) :: rest else p :: mapSet rest k v

/-- The session state of a `TS3Client` (the fields used by the embedded
handlers; packet counters, fragment accumulator, handshake data, and the
server view). -/
structure TS3State where
  outPacketId : List (Nat × Nat)
  inPacketId : List (Nat × Nat)
  generationId : Nat
  fragmentBuffer : Option (List Nat)
  fragmentType : Option Nat
  initStep : Nat
  initRandom0 : List Nat
  sharedIv : Option (List Nat)
  clientId : Nat
  ownClientId : Nat
  currentChannelId : Nat
  channels : List (Nat × List Char)
  ackPending : List Nat
deriving DecidableEq

/-- The state built by the `TS3Client` constructor: packet-id counters 0
through 8 set to 0, generation 0, no fragment in flight, the 4 random
bytes `initRandom0` drawn at construction time, everything else empty. -/
def mkInitState (r0 : List Nat) : TS3State where
  outPacketId := (List.range 9).map fun i => (i, 0)
  inPacketId := (List.range 9).map fun i => (i, 0)
  generationId := 0
  fragmentBuffer := none
  fragmentType := none
  initStep := 0
  initRandom0 := r0
  sharedIv := none
  clientId := 0
  ownClientId := 0
  currentChannelId := 0
  channels := []
  ackPending := []

/-- `getNextPacketId(pType)`: return the per-type counter
(`get(pType) || 0`) and store `(id + 1) & 0xffff`. -/
def getNextPacketId (st : TS3State) (t : Nat) : Nat × TS3State :=
  let id := mapGetD st.outPacketId t 0
  (id, { st with outPacketId := mapSet st.outPacketId t ((id + 1) &&& 0xffff) })

/-- Observable effects of the embedded handlers.  Init, ping/pong and
ack replies carry their semantic fields (the byte serialization and the
per-packet encryption of outgoing traffic are transport encoding and are
not modelled); `deliver` is a call to `handleCommandData` on an
assembled command buffer; `sendCmd` is `sendCommand`'s command string. -/
inductive TS3Action where
  | sendInit2 (random1 random0r : List Nat)
  | sendInit4 (x n : List Nat) (level : Nat) (random2 y : List Nat)
  | sendPong (pingId packetId : Nat)
  | sendAck (ackType ackedId packetId : Nat)
  | deliver (data : List Nat) (packetId pType : Nat)
  | sendCmd (packetId : Nat) (cmdStr : List Char)
deriving DecidableEq

/-- Big-endian 16-bit read (`readUInt16BE`). -/
def readU16BE (l : List Nat) (o : Nat) : Nat :=
  l.getD o 0 * 256 + l.getD (o + 1) 0

/-- Big-endian 32-bit read (`readUInt32BE`). -/
def readU32BE (l : List Nat) (o : Nat) : Nat :=
  ((l.getD o 0 * 256 + l.getD (o + 1) 0) * 256 + l.getD (o + 2) 0) * 256 + l.getD (o + 3) 0

/-- `sendPong(pingId)`: draw the next Pong (type 5) packet id and emit
the pong. -/
def sendPong (st : TS3State) (pingId : Nat) : TS3State × TS3Action :=
  let r := getNextPacketId st 5
  (r.2, .sendPong pingId r.1)

/-- `sendAck(packetId, ackType)`: draw the next packet id of the ack
type and emit the ack carrying the acked id. -/
def sendAck (st : TS3State) (packetId ackType : Nat) : TS3State × TS3Action :=
  let r := getNextPacketId st ackType
  (r.2, .sendAck ackType packetId r.1)

/-- `handleInitPacket(data)`: step 1 answers with Init2 echoing
`random1` and `random0_r` (no comparison against the sent `random0`);
step 3 solves the puzzle and answers with Init4; anything else is
ignored. -/
def handleInitPacket (st : TS3State) (data : List Nat) : TS3State × List TS3Action :=
  let content := data.drop 11
  if content.length < 1 then (st, [])
  else
    let step := content.getD 0 0
    if step = 1 ∧ 21 ≤ content.length then
      ({ st with initStep := 2 },
       [.sendInit2 ((content.drop 1).take 16) ((content.drop 17).take 4)])
    else if step = 3 ∧ 233 ≤ content.length then
      let x := (content.drop 1).take 64
      let n := (content.drop 65).take 64
      let level := readU32BE content 129
      ({ st with initStep := 4 },
       [.sendInit4 x n level ((content.drop 133).take 100) (solveRsaPuzzle x n level)])
    else (st, [])

/-- The decryption cascade of `handlePacket`'s Command branch: plain
payload when UNENCRYPTED, otherwise the fake key, then the session key
schedule, then the fake key again. -/
def commandContent (P : Prims) (st : TS3State) (data : List Nat)
    (flags pType packetId : Nat) : Option (List Nat) :=
  if flags &&& 0x80 ≠ 0 then some (data.drop 11)
  else
    let c0 := decryptFake P data 11
    let c1 :=
      if c0 = none ∧ st.sharedIv.isSome then
        let kn := createKeyNonce P pType false packetId st.generationId (st.sharedIv.getD [])
        eaxDecrypt P kn.1 kn.2 ((data.drop 8).take 3) (data.drop 11) (data.take 8)
      else c0
    if c1 = none ∧ st.sharedIv.isSome then decryptFake P data 11 else c1

/-- `handlePacket(data)` for a server-to-client datagram: drop anything
shorter than the 11-byte header, dispatch on the low nibble of the type
byte, and in the Command branch run the decryption cascade, the
compressed-drop, the fragment accumulator and the ack reply exactly as
the source does. -/
def handlePacket (P : Prims) (st : TS3State) (data : List Nat) : TS3State × List TS3Action :=
  if data.length < 11 then (st, [])
  else
    let packetId := readU16BE data 8
    let typeByte := data.getD 10 0
    let pType := typeByte &&& 0x0f
    let flags := typeByte &&& 0xf0
    if pType = 8 then handleInitPacket st data
    else if pType = 4 then
      let r := sendPong st packetId
      (r.1, [r.2])
    else if pType = 5 then (st, [])
    else if pType = 6 ∨ pType = 7 then
      if data.length < 13 then (st, [])
      else ({ st with ackPending := st.ackPending.erase (readU16BE data 11) }, [])
    else if pType = 2 ∨ pType = 3 then
      match commandContent P st data flags pType packetId with
      | none => (st, [])
      | some content =>
        if flags &&& 0x40 ≠ 0 then (st, [])
        else
          let step :=
            if flags &&& 0x10 ≠ 0 then
              match st.fragmentBuffer with
              | none =>
                ({ st with fragmentBuffer := some content, fragmentType := some pType },
                 ([] : List TS3Action))
              | some buf =>
                ({ st with fragmentBuffer := none, fragmentType := none },
                 [TS3Action.deliver (buf ++ content) packetId pType])
            else (st, [TS3Action.deliver content packetId pType])
          let r := sendAck step.1 packetId (if pType = 3 then 7 else 6)
          (r.1, step.2 ++ [r.2])
    else (st, [])

/-- Feed a sequence of datagrams through `handlePacket`, accumulating
the emitted actions in order. -/
def runPackets (P : Prims) (st : TS3State) (ds : List (List Nat)) : TS3State × List TS3Action :=
  ds.foldl (fun acc d =>
    let r := handlePacket P acc.1 d
    (r.1, acc.2 ++ r.2)) (st, [])

/-- The command buffers delivered to `handleCommandData` among a list of
actions, in order. -/
def deliveriesOf (as : List TS3Action) : List (List Nat) :=
  as.foldr (fun a acc =>
    match a with
    | .deliver d _ _ => d :: acc
    | _ => acc) []

/-! ## High-level commands (`sendCommand`, `moveToChannel`) -/

/-- `sendCommand`'s command string: the name followed by
`` ` ${key}=${escapeTS3(value)}` `` for each parameter. -/
def buildCmdStr (name : List Char) (params : List (List Char × List Char)) : List Char :=
  params.foldl (fun acc kv => acc ++ (' ' :: kv.1) ++ ('=' :: escapeTS3 kv.2)) name

/-- JS `String(n)` for a natural number. -/
def natChars (n : Nat) : List Char := (Nat.repr n).toList

/-- `sendCommand(name, params)`: build the command string, draw the next
Command (type 2) packet id, and emit the command (its EAX encryption is
transport encoding, not modelled). -/
def sendCommand (st : TS3State) (name : List Char) (params : List (List Char × List Char)) :
    TS3State × TS3Action :=
  let r := getNextPacketId st 2
  (r.2, .sendCmd r.1 (buildCmdStr name params))

/-- `sendTextMessage(targetmode, target, msg)`. -/
def sendTextMessage (st : TS3State) (targetmode : Nat) (target msg : List Char) :
    TS3State × TS3Action :=
  sendCommand st "sendtextmessage".toList
    [("targetmode".toList, natChars targetmode), ("target".toList, target),
     ("msg".toList, msg)]

/-- `sendChannelMessage(msg)`: a mode-2 text message targeting the
current channel id. -/
def sendChannelMessage (st : TS3State) (msg : List Char) : TS3State × TS3Action :=
  sendTextMessage st 2 (natChars st.currentChannelId) msg

/-- JS `a.toLowerCase() === b.toLowerCase()` (ASCII case folding). -/
def lowerEq (a b : List Char) : Bool :=
  a.map Char.toLower == b.map Char.toLower

/-- The channel-directory loop of `moveToChannel`: on the first
case-insensitive name match send `clientmove`, set the current channel
id, and return `true`; otherwise keep scanning. -/
def moveToChannelGo (st : TS3State) (channelName : List Char) :
    List (Nat × List Char) → Bool × TS3State × List TS3Action
  | [] => (false, st, [])
  | (cid, nm) :: rest =>
    if lowerEq nm channelName then
      let r := sendCommand st "clientmove".toList
        [("clid".toList, natChars st.ownClientId), ("cid".toList, natChars cid)]
      (true, { r.1 with currentChannelId := cid }, [r.2])
    else moveToChannelGo st channelName rest

/-- `moveToChannel(channelName)` over the session's channel directory. -/
def moveToChannel (st : TS3State) (channelName : List Char) :
    Bool × TS3State × List TS3Action :=
  moveToChannelGo st channelName st.channels

/-- The id of the first channel whose name matches case-insensitively. -/
def firstMatch (channelName : List Char) : List (Nat × List Char) → Option Nat
  | [] => none
  | (cid, nm) :: rest =>
    if lowerEq nm channelName then some cid else firstMatch channelName rest

/-! ## The UDP relay upgrade gate (`proxy.js`) -/

/-- Outcome of the relay's `upgrade` handler.  Only `accept` reaches
`dgram.createSocket` (the UDP socket allocation); both rejections write
an HTTP error status and destroy the TCP socket first.  `accept` keeps
the raw `port` query parameter (its `parseInt` default of 9987 is not
needed here). -/
inductive UpgradeResult where
  | reject401
  | reject400
  | accept (targetHost : String) (portParam : Option String)
deriving DecidableEq

/-- The token / host checks at the top of `server.on("upgrade")`:
`token !== SECRET` (a missing token is `null`, hence unequal) gives 401,
a missing or empty `host` gives 400, otherwise the connection proceeds
to the UDP socket allocation. -/
def handleUpgrade (secret : String) (token targetHost portParam : Option String) :
    UpgradeResult :=
  if token ≠ some secret then .reject401
  else
    match targetHost with
    | none => .reject400
    | some h => if h = "" then .reject400 else .accept h portParam

/-- Whether the upgrade outcome allocates a per-connection UDP socket. -/
def udpAllocated : UpgradeResult → Bool
  | .accept _ _ => true
  | _ => false

/-! ## Concrete example data for evaluating the theorems -/

/-- A session that knows one channel, `Lobby` with id 5. -/
def exChanSt : TS3State :=
  { mkInitState [0, 0, 0, 0] with channels := [(5, "Lobby".toList)], ownClientId := 7 }

/-- `k` successive `getNextPacketId` draws of packet type `t` (the
counter effect of `k` sends of that type). -/
def iterOut (t : Nat) : Nat → TS3State → TS3State
  | 0, st => st
  | k + 1, st => (getNextPacketId (iterOut t k st) t).2

/-! ### Arithmetic facts about the squaring loop -/

/-- One unrolling of the loop. -/
theorem sqLoop_succ (n k v : Nat) : sqLoop n (k + 1) v = sqLoop n k (v * v % n) := rfl

/-- After `k + 1` iterations the loop value is `v ^ 2 ^ (k + 1) % n`. -/
theorem sqLoop_eq_pow_mod (n : Nat) : ∀ (k v : Nat), sqLoop n (k + 1) v = v ^ 2 ^ (k + 1) % n := by
  intro k
  induction k with
  | zero =>
    intro v
    simp [sqLoop, pow_succ, pow_one, Nat.pow_zero, sq]
  | succ k ih =>
    intro v
    rw [sqLoop_succ, ih (v * v % n), ← Nat.pow_mod, ← pow_two, ← pow_mul]
    congr 1
    ring

/-- C1: the escape round-trip fails on the code.  For the two-character
input backslash-`s` (and for the spec's adversarial example `a\sb|c`),
`unescapeTS3 (escapeTS3 s) ≠ s`: `unescapeTS3` rewrites `\s` to a space
before collapsing `\\`, so the escaped form `\\s` of backslash-`s`
comes back as backslash-space. -/
theorem unescape_escape_not_id :
    unescapeTS3 (escapeTS3 ['\\', 's']) = ['\\', ' '] ∧
    unescapeTS3 (escapeTS3 ['\\', 's']) ≠ ['\\', 's'] ∧
    unescapeTS3 (escapeTS3 "a\\sb|c".toList) ≠ "a\\sb|c".toList := by
  decide

/-- C5 (counterexample): with `level = 0` the loop body never runs, so no
reduction modulo `n` happens; for `x = 5`, `n = 3`, `level = 0` the code
returns the encoding of `5`, not of `5 ^ 2 ^ 0 % 3 = 2`. -/
theorem solveRsaPuzzle_level_zero_no_mod :
    solveRsaPuzzle (toBytesBE 64 5) (toBytesBE 64 3) 0 ≠
      toBytesBE 64 (fromBytesBE (toBytesBE 64 5) ^ 2 ^ 0 % fromBytesBE (toBytesBE 64 3)) := by
  decide

/-- C5 (amended): for every pair of 64-byte big-endian buffers `x`, `n`
with `n > 0` and every `level ≥ 1`, `solveRsaPuzzle` returns the 64-byte
big-endian encoding of `x ^ 2 ^ level mod n`. -/
theorem solveRsaPuzzle_eq_pow_mod (x n : List Nat) (level : Nat)
    (hx : x.length = 64) (hn : n.length = 64)
    (hpos : 0 < fromBytesBE n) (hlevel : 1 ≤ level) :
    solveRsaPuzzle x n level = toBytesBE 64 (fromBytesBE x ^ 2 ^ level % fromBytesBE n) := by
  obtain ⟨k, rfl⟩ : ∃ k, level = k + 1 := ⟨level - 1, by omega⟩
  unfold solveRsaPuzzle
  rw [sqLoop_eq_pow_mod]

/-- C5 (witness): the amended statement evaluated at `x = 3`, `n = 5`,
`level = 2`, where `3 ^ 4 % 5 = 1`. -/
theorem solveRsaPuzzle_eq_pow_mod_witness :
    (toBytesBE 64 3).length = 64 ∧ (toBytesBE 64 5).length = 64 ∧
    0 < fromBytesBE (toBytesBE 64 5) ∧ 1 ≤ 2 ∧
    solveRsaPuzzle (toBytesBE 64 3) (toBytesBE 64 5) 2 =
      toBytesBE 64 (fromBytesBE (toBytesBE 64 3) ^ 2 ^ 2 % fromBytesBE (toBytesBE 64 5)) :=
  ⟨by decide, by decide, by decide, by decide,
    solveRsaPuzzle_eq_pow_mod _ _ _ (by decide) (by decide) (by decide) (by decide)⟩

/-! ### Packet-counter lemmas -/

/-- `mapSet` followed by a lookup of the same key yields the stored value. -/
theorem mapGetD_mapSet (m : List (Nat × Nat)) (k v d : Nat) :
    mapGetD (mapSet m k v) k d = v := by
  induction m with
  | nil => simp [mapSet, mapGetD]
  | cons p rest ih =>
    by_cases h : p.1 = k
    · simp [mapSet, h, mapGetD]
    · simp only [mapSet, if_neg h]
      simpa [mapGetD, List.find?_cons, beq_iff_eq, h] using ih

/-- The 16-bit mask in `getNextPacketId` is reduction modulo 2^16. -/
theorem and_ffff_eq_mod (n : Nat) : n &&& 0xffff = n % 65536 := by
  have h : (0xffff : Nat) = 2 ^ 16 - 1 := by norm_num
  rw [h, Nat.and_pow_two_sub_one_eq_mod]

/-- C4 (amended): a send of packet type `t` returns the per-type counter
and stores its successor modulo 2^16; the single session-wide
`generationId` is never modified — in particular not when the counter
wraps from 0xFFFF to 0. -/
theorem getNextPacketId_spec (st : TS3State) (t : Nat) :
    (getNextPacketId st t).1 = mapGetD st.outPacketId t 0 ∧
    mapGetD (getNextPacketId st t).2.outPacketId t 0 =
      ((getNextPacketId st t).1 + 1) % 65536 ∧
    (getNextPacketId st t).2.generationId = st.generationId := by
  refine ⟨rfl, ?_, rfl⟩
  simp [getNextPacketId, mapGetD_mapSet, and_ffff_eq_mod]

/-- The Command counter after `k` sends is `k % 65536` and the
generation is still 0. -/
theorem iterOut_counter (r0 : List Nat) (k : Nat) :
    mapGetD (iterOut 2 k (mkInitState r0)).outPacketId 2 0 = k % 65536 ∧
    (iterOut 2 k (mkInitState r0)).generationId = 0 := by
  induction k with
  | zero => exact ⟨rfl, rfl⟩
  | succ k ih =>
    refine ⟨?_, ?_⟩
    · show mapGetD (getNextPacketId (iterOut 2 k (mkInitState r0)) 2).2.outPacketId 2 0 = _
      rw [getNextPacketId, mapGetD_mapSet, and_ffff_eq_mod, ih.1, Nat.add_mod k 1]
    · show (getNextPacketId (iterOut 2 k (mkInitState r0)) 2).2.generationId = 0
      rw [getNextPacketId]
      exact ih.2

/-- C4 (counterexample): starting from a fresh client, after 65535
Command sends the Command counter is 0xFFFF and after one more send it
has wrapped to 0, yet `generationId` is still 0 — the claimed generation
increment on wrap never happens (no code path writes `generationId`). -/
theorem generation_not_incremented_on_wrap :
    mapGetD (iterOut 2 65535 (mkInitState [0, 0, 0, 0])).outPacketId 2 0 = 65535 ∧
    mapGetD (iterOut 2 65536 (mkInitState [0, 0, 0, 0])).outPacketId 2 0 = 0 ∧
    (iterOut 2 65536 (mkInitState [0, 0, 0, 0])).generationId = 0 ∧
    (iterOut 2 65536 (mkInitState [0, 0, 0, 0])).generationId ≠ 1 := by
  have h1 := iterOut_counter [0, 0, 0, 0] 65535
  have h2 := iterOut_counter [0, 0, 0, 0] 65536
  refine ⟨?_, ?_, h2.2, ?_⟩
  · rw [h1.1]
  · rw [h2.1]
  · rw [h2.2]
    decide

/-! ### Packet-dispatch theorems -/

/-- C10: a datagram shorter than the 11-byte server-to-client header
is dropped by `handlePacket` with no state change and no reply. -/
theorem handlePacket_short_noop (P : Prims) (st : TS3State) (data : List Nat)
    (h : data.length < 11) : handlePacket P st data = (st, []) := by
  unfold handlePacket
  rw [if_pos h]

/-- C10 (witness): `handlePacket` on a concrete 3-byte datagram. -/
theorem handlePacket_short_noop_witness :
    ([0, 1, 2] : List Nat).length < 11 ∧
    handlePacket trivPrims (mkInitState [1, 2, 3, 4]) [0, 1, 2] =
      (mkInitState [1, 2, 3, 4], []) :=
  ⟨by decide, handlePacket_short_noop _ _ _ (by decide)⟩

/-- C2: two unencrypted Command frames, the first carrying FRAGMENTED
(type byte `0x92`) with payload `[97, 98]` and the second without the
flag (type byte `0x82`) with payload `[99, 100]`, do NOT deliver the
concatenation: the engine delivers only the second payload and leaves
the first stuck in the fragment buffer. -/
theorem fragment_assembly_broken :
    deliveriesOf (runPackets trivPrims (mkInitState [0, 0, 0, 0])
        [List.replicate 8 0 ++ [0, 1, 0x92, 97, 98],
         List.replicate 8 0 ++ [0, 2, 0x82, 99, 100]]).2 = [[99, 100]] ∧
    ([[99, 100]] : List (List Nat)) ≠ [[97, 98, 99, 100]] ∧
    (runPackets trivPrims (mkInitState [0, 0, 0, 0])
        [List.replicate 8 0 ++ [0, 1, 0x92, 97, 98],
         List.replicate 8 0 ++ [0, 2, 0x82, 99, 100]]).1.fragmentBuffer =
      some [97, 98] := by
  decide

/-- C3: `handleInitPacket` performs no comparison of the received
`random0_r` against the `random0` sent in Init0: every well-formed Init1
— in particular one whose `random0_r` differs from `initRandom0` — is
answered with Init2 echoing the received bytes, and no error of any kind
is raised. -/
theorem init1_mismatch_still_answered (P : Prims) (st : TS3State) (data : List Nat)
    (htype : data.getD 10 0 &&& 0x0f = 8)
    (hstep : (data.drop 11).getD 0 0 = 1)
    (hlen : 21 ≤ (data.drop 11).length)
    (hmismatch : ((data.drop 11).drop 17).take 4 ≠ st.initRandom0) :
    handlePacket P st data =
      ({ st with initStep := 2 },
       [.sendInit2 (((data.drop 11).drop 1).take 16) (((data.drop 11).drop 17).take 4)]) := by
  have hnd : ¬ data.length < 11 := by
    have h := List.length_drop 11 data
    omega
  have hl : 21 ≤ data.length - 11 := by
    have h := List.length_drop 11 data
    omega
  have h0 : ¬ data.length - 11 = 0 := by omega
  have hx : data[10]?.getD 0 &&& 15 = 8 := by simpa using htype
  have hs : data[11]?.getD 0 = 1 := by simpa using hstep
  simp [handlePacket, handleInitPacket, hnd, h0, hx, hs, hl]

/-- C3 (witness): a concrete Init1 whose `random0_r` is `[9, 9, 9, 9]`
while the client sent `random0 = [1, 2, 3, 4]` is still answered with
Init2. -/
theorem init1_mismatch_still_answered_witness :
    (List.replicate 8 0 ++ [0, 0x65, 8] ++
        ([1] ++ List.replicate 16 7 ++ [9, 9, 9, 9]) : List Nat).getD 10 0 &&& 0x0f = 8 ∧
    handlePacket trivPrims (mkInitState [1, 2, 3, 4])
        (List.replicate 8 0 ++ [0, 0x65, 8] ++ ([1] ++ List.replicate 16 7 ++ [9, 9, 9, 9])) =
      ({ mkInitState [1, 2, 3, 4] with initStep := 2 },
       [.sendInit2
          ((((List.replicate 8 0 ++ [0, 0x65, 8] ++
              ([1] ++ List.replicate 16 7 ++ [9, 9, 9, 9])).drop 11).drop 1).take 16)
          ((((List.replicate 8 0 ++ [0, 0x65, 8] ++
              ([1] ++ List.replicate 16 7 ++ [9, 9, 9, 9])).drop 11).drop 17).take 4)]) :=
  ⟨by decide,
   init1_mismatch_still_answered _ _ _ (by decide) (by decide) (by decide) (by decide)⟩

/-- C6: the puzzle level is never capped: for every well-formed Init3 —
whatever the 32-bit `level` field holds — `handleInitPacket` runs the
squaring loop (`solveRsaPuzzle` at exactly that level) and answers with
Init4; no level is rejected and no `Protocol` failure exists on this
path. -/
theorem init3_no_level_cap (P : Prims) (st : TS3State) (data : List Nat)
    (htype : data.getD 10 0 &&& 0x0f = 8)
    (hstep : (data.drop 11).getD 0 0 = 3)
    (hlen : 233 ≤ (data.drop 11).length) :
    handlePacket P st data =
      ({ st with initStep := 4 },
       [.sendInit4 (((data.drop 11).drop 1).take 64) (((data.drop 11).drop 65).take 64)
          (readU32BE (data.drop 11) 129) (((data.drop 11).drop 133).take 100)
          (solveRsaPuzzle (((data.drop 11).drop 1).take 64)
            (((data.drop 11).drop 65).take 64) (readU32BE (data.drop 11) 129))]) := by
  have hnd : ¬ data.length < 11 := by
    have h := List.length_drop 11 data
    omega
  have hl : 233 ≤ data.length - 11 := by
    have h := List.length_drop 11 data
    omega
  have h0 : ¬ data.length - 11 = 0 := by omega
  have hx : data[10]?.getD 0 &&& 15 = 8 := by simpa using htype
  have hs : data[11]?.getD 0 = 3 := by simpa using hstep
  simp [handlePacket, handleInitPacket, hnd, h0, hx, hs, hl]

/-- C6 (witness): a concrete Init3 (level 2, `x = 3`, `n = 5`) is
answered with Init4 carrying the puzzle solution. -/
theorem init3_no_level_cap_witness :
    (List.replicate 8 0 ++ [0, 0x65, 8] ++
        ([3] ++ (List.replicate 63 0 ++ [3]) ++ (List.replicate 63 0 ++ [5]) ++
          [0, 0, 0, 2] ++ List.replicate 100 0) : List Nat).getD 10 0 &&& 0x0f = 8 ∧
    handlePacket trivPrims (mkInitState [1, 2, 3, 4])
        (List.replicate 8 0 ++ [0, 0x65, 8] ++
          ([3] ++ (List.replicate 63 0 ++ [3]) ++ (List.replicate 63 0 ++ [5]) ++
            [0, 0, 0, 2] ++ List.replicate 100 0)) =
      ({ mkInitState [1, 2, 3, 4] with initStep := 4 },
       [.sendInit4
          ((((List.replicate 8 0 ++ [0, 0x65, 8] ++
              ([3] ++ (List.replicate 63 0 ++ [3]) ++ (List.replicate 63 0 ++ [5]) ++
                [0, 0, 0, 2] ++ List.replicate 100 0)).drop 11).drop 1).take 64)
          ((((List.replicate 8 0 ++ [0, 0x65, 8] ++
              ([3] ++ (List.replicate 63 0 ++ [3]) ++ (List.replicate 63 0 ++ [5]) ++
                [0, 0, 0, 2] ++ List.replicate 100 0)).drop 11).drop 65).take 64)
          (readU32BE ((List.replicate 8 0 ++ [0, 0x65, 8] ++
              ([3] ++ (List.replicate 63 0 ++ [3]) ++ (List.replicate 63 0 ++ [5]) ++
                [0, 0, 0, 2] ++ List.replicate 100 0)).drop 11) 129)
          ((((List.replicate 8 0 ++ [0, 0x65, 8] ++
              ([3] ++ (List.replicate 63 0 ++ [3]) ++ (List.replicate 63 0 ++ [5]) ++
                [0, 0, 0, 2] ++ List.replicate 100 0)).drop 11).drop 133).take 100)
          (solveRsaPuzzle
            ((((List.replicate 8 0 ++ [0, 0x65, 8] ++
                ([3] ++ (List.replicate 63 0 ++ [3]) ++ (List.replicate 63 0 ++ [5]) ++
                  [0, 0, 0, 2] ++ List.replicate 100 0)).drop 11).drop 1).take 64)
            ((((List.replicate 8 0 ++ [0, 0x65, 8] ++
                ([3] ++ (List.replicate 63 0 ++ [3]) ++ (List.replicate 63 0 ++ [5]) ++
                  [0, 0, 0, 2] ++ List.replicate 100 0)).drop 11).drop 65).take 64)
            (readU32BE ((List.replicate 8 0 ++ [0, 0x65, 8] ++
                ([3] ++ (List.replicate 63 0 ++ [3]) ++ (List.replicate 63 0 ++ [5]) ++
                  [0, 0, 0, 2] ++ List.replicate 100 0)).drop 11) 129))]) :=
  ⟨by decide, init3_no_level_cap _ _ _ (by decide) (by decide) (by decide)⟩

/-! ### EAX round-trip -/

/-- CTR preserves length. -/
theorem ctrCrypt_length (P : Prims) (key iv d : List Nat) :
    (ctrCrypt P key iv d).length = d.length := by
  simp [ctrCrypt]

/-- CTR applied twice with the same key and counter start is the
identity: each byte is XORed twice with the same keystream byte. -/
theorem ctrCrypt_ctrCrypt (P : Prims) (key iv d : List Nat) :
    ctrCrypt P key iv (ctrCrypt P key iv d) = d := by
  apply List.ext_getElem
  · simp [ctrCrypt]
  intro i h1 h2
  simp only [ctrCrypt, List.getElem_map, List.getElem_range, List.getD_eq_getElem?_getD,
    List.getElem?_map, List.getElem?_range, h2, if_true, Option.map_some',
    Option.getD_some, List.getElem?_eq_getElem h2]
  exact Nat.xor_cancel_right _ _

/-- The tag comparison loop of `eaxDecrypt` succeeds when the tag is the
8-byte truncation of the recomputed 16-byte tag. -/
theorem tag_check_take8 (l : List Nat) (hl : l.length = 16) :
    (List.range (l.take 8).length).all
      (fun i => l[i]? == some ((l.take 8).getD i 0)) = true := by
  rw [List.all_eq_true]
  intro i hi
  rw [List.mem_range, List.length_take] at hi
  have h8 : i < 8 := lt_of_lt_of_le hi (min_le_left _ _)
  have h16 : i < l.length := by omega
  rw [List.getD_eq_getElem?_getD, List.getElem?_take_of_lt h8,
    List.getElem?_eq_getElem h16]
  simp

/-- C7: EAX round-trip.  For every 16-byte key and nonce, any header and
any plaintext, `eaxDecrypt` applied to the ciphertext and 8-byte tag
produced by `eaxEncrypt` under the same key, nonce and header passes tag
verification and returns the original plaintext.  (The statement holds
for an arbitrary block cipher `P.aesBlock`, in particular for AES-128.) -/
theorem eaxDecrypt_eaxEncrypt (P : Prims) (key nonce header plaintext : List Nat)
    (hkey : key.length = 16) (hnonce : nonce.length = 16) :
    eaxDecrypt P key nonce header
      (eaxEncrypt P key nonce header plaintext 8).1
      (eaxEncrypt P key nonce header plaintext 8).2 = some plaintext := by
  unfold eaxDecrypt eaxEncrypt
  simp only []
  rw [if_pos]
  · rw [ctrCrypt_ctrCrypt]
  · apply tag_check_take8
    simp

/-- C7 (witness): the round-trip evaluated at a concrete key, nonce,
header and plaintext. -/
theorem eaxDecrypt_eaxEncrypt_witness :
    (List.replicate 16 1 : List Nat).length = 16 ∧
    (List.replicate 16 2 : List Nat).length = 16 ∧
    eaxDecrypt trivPrims (List.replicate 16 1) (List.replicate 16 2) [5, 6]
      (eaxEncrypt trivPrims (List.replicate 16 1) (List.replicate 16 2) [5, 6] [7, 8, 9] 8).1
      (eaxEncrypt trivPrims (List.replicate 16 1) (List.replicate 16 2) [5, 6] [7, 8, 9] 8).2 =
      some [7, 8, 9] :=
  ⟨by decide, by decide,
   eaxDecrypt_eaxEncrypt trivPrims _ _ _ _ (by decide) (by decide)⟩

/-! ### Relay upgrade gate -/

/-- C8: every upgrade whose `token` query parameter is missing or
differs from the relay's shared secret is answered with HTTP 401 and the
connection is terminated before the per-connection UDP socket is
allocated. -/
theorem upgrade_bad_token_rejected (secret : String) (token host port : Option String)
    (h : token ≠ some secret) :
    handleUpgrade secret token host port = .reject401 ∧
    udpAllocated (handleUpgrade secret token host port) = false := by
  rw [handleUpgrade.eq_def, if_pos h]
  exact ⟨rfl, rfl⟩

/-- C8 (witness): a wrong token against secret `"s3cret"` and a missing
token are both rejected with 401 and no UDP socket. -/
theorem upgrade_bad_token_rejected_witness :
    ((some "wrong" : Option String) ≠ some "s3cret" ∧
      handleUpgrade "s3cret" (some "wrong") (some "ts.example") none = .reject401 ∧
      udpAllocated (handleUpgrade "s3cret" (some "wrong") (some "ts.example") none) = false) ∧
    ((none : Option String) ≠ some "s3cret" ∧
      handleUpgrade "s3cret" none (some "ts.example") none = .reject401 ∧
      udpAllocated (handleUpgrade "s3cret" none (some "ts.example") none) = false) :=
  ⟨⟨by decide, upgrade_bad_token_rejected "s3cret" (some "wrong") _ _ (by decide)⟩,
   ⟨by decide, upgrade_bad_token_rejected "s3cret" none _ _ (by decide)⟩⟩

/-! ### moveToChannel frame conditions -/

/-- The channel-scan loop: a `true` return sets the current channel id
to the first case-insensitive match; a `false` return leaves the state
untouched and sends nothing. -/
theorem moveToChannelGo_spec (st : TS3State) (cname : List Char)
    (chans : List (Nat × List Char)) :
    ((moveToChannelGo st cname chans).1 = true →
      firstMatch cname chans = some (moveToChannelGo st cname chans).2.1.currentChannelId) ∧
    ((moveToChannelGo st cname chans).1 = false →
      (moveToChannelGo st cname chans).2 = (st, [])) := by
  induction chans with
  | nil => exact ⟨fun h => by simp [moveToChannelGo] at h, fun _ => rfl⟩
  | cons p rest ih =>
    obtain ⟨cid, nm⟩ := p
    by_cases h : lowerEq nm cname
    · refine ⟨fun _ => ?_, fun hf => ?_⟩
      · simp [moveToChannelGo, firstMatch, h]
      · simp [moveToChannelGo, h] at hf
    · simpa [moveToChannelGo, firstMatch, h] using ih

/-- C9: when `moveToChannel` returns `true`, the session's current
channel id has been set to the id of the (first, case-insensitive)
matched channel, so a subsequent `sendChannelMessage` emits a
`sendtextmessage` whose `target` is that channel id; when it returns
`false`, the session state is returned unchanged and nothing is sent. -/
theorem moveToChannel_spec (st : TS3State) (cname msg : List Char) :
    ((moveToChannel st cname).1 = true →
      firstMatch cname st.channels = some (moveToChannel st cname).2.1.currentChannelId ∧
      (sendChannelMessage (moveToChannel st cname).2.1 msg).2 =
        .sendCmd (mapGetD (moveToChannel st cname).2.1.outPacketId 2 0)
          (buildCmdStr "sendtextmessage".toList
            [("targetmode".toList, natChars 2),
             ("target".toList, natChars (moveToChannel st cname).2.1.currentChannelId),
             ("msg".toList, msg)])) ∧
    ((moveToChannel st cname).1 = false → (moveToChannel st cname).2 = (st, [])) := by
  refine ⟨fun h => ⟨(moveToChannelGo_spec st cname st.channels).1 h, rfl⟩,
    (moveToChannelGo_spec st cname st.channels).2⟩

/-- C9 (witness): moving to `"LOBBY"` in a session whose directory holds
`(5, "Lobby")` returns `true`, sets the current channel id to 5, and a
subsequent channel message targets channel 5. -/
theorem moveToChannel_spec_witness :
    firstMatch "LOBBY".toList exChanSt.channels =
      some (moveToChannel exChanSt "LOBBY".toList).2.1.currentChannelId ∧
    (sendChannelMessage (moveToChannel exChanSt "LOBBY".toList).2.1 "hi".toList).2 =
      .sendCmd (mapGetD (moveToChannel exChanSt "LOBBY".toList).2.1.outPacketId 2 0)
        (buildCmdStr "sendtextmessage".toList
          [("targetmode".toList, natChars 2),
           ("target".toList,
             natChars (moveToChannel exChanSt "LOBBY".toList).2.1.currentChannelId),
           ("msg".toList, "hi".toList)]) :=
  (moveToChannel_spec exChanSt "LOBBY".toList "hi".toList).1 (by decide)
